import Mathlib

/-!
Shallow embedding of the trust-score computation of trustverifier-api.

Part 1 (`src/pilot.py`): `compute_pdr`, `compute_quality_score` and the
overall-score combination from `get_agent_score`.  Python floats are
modelled as exact rationals (`ℚ`); snapshot activity fields are the
non-negative integer counts of the data model.  The wall-clock timestamp
of the provenance record is I/O and is not part of the embedded state.

Part 2 (`src/api/index.py`): `_calc_score` and its helpers.  The external
GitHub profile fetch `_fetch_github` is a collaborator boundary and is a
function parameter; the SHA-256 digest-to-integer primitive
`int(hashlib.sha256(s).hexdigest()[:4], 16)` of the demo branch is likewise
a fixed function parameter `hash4 : String → Nat` (the source's digest is a
deterministic pure function of the string; only that determinism matters).
-/

namespace TrustVerifier

/-- One daily snapshot (`SnapshotData` in `src/pilot.py`): activity counts
for one agent on one date.  `prs_merged` and the free-form metadata are
carried by the source model but unused by the scoring code. -/
structure SnapshotData where
  agent_id : String
  date : String
  commits : Nat
  releases : Nat
  issues_closed : Nat
  prs_merged : Nat
  stars_gained : Nat
  contributors : Nat
deriving DecidableEq, Repr

/-- Provenance value returned by `compute_pdr`: either the degenerate
`{"error": msg}` dictionary of the empty-snapshot branch, or the full
audit record (method/source/formula/verifier strings, the raw input sums
and both velocities, and the final PDR).  The source also stamps
`datetime.utcnow()`; wall-clock time is outside the embedding. -/
inductive Provenance where
  | err (msg : String)
  | record (method source formula verifier : String)
      (baseline_commits baseline_releases baseline_days : Nat)
      (baseline_velocity : ℚ)
      (current_commits current_releases current_days : Nat)
      (current_velocity : ℚ)
      (pdrValue : ℚ)
deriving DecidableEq, Repr

/-- `snapshots[:7] if len(snapshots) >= 7 else snapshots`. -/
def baseline_window (snapshots : List SnapshotData) : List SnapshotData :=
  if 7 ≤ snapshots.length then snapshots.take 7 else snapshots

/-- `snapshots[-7:] if len(snapshots) >= 7 else snapshots`. -/
def recent_window (snapshots : List SnapshotData) : List SnapshotData :=
  if 7 ≤ snapshots.length then snapshots.drop (snapshots.length - 7) else snapshots

/-- `(sum of commits + sum of releases * 5) / number of days` over a window,
as in the two velocity computations of `compute_pdr`. -/
def window_velocity (w : List SnapshotData) : ℚ :=
  (((w.map SnapshotData.commits).sum : ℚ) + ((w.map SnapshotData.releases).sum : ℚ) * 5)
    / (w.length : ℚ)

def baseline_velocity (snapshots : List SnapshotData) : ℚ :=
  window_velocity (baseline_window snapshots)

def current_velocity (snapshots : List SnapshotData) : ℚ :=
  window_velocity (recent_window snapshots)

/-- The PDR value of `compute_pdr`'s non-empty branch:
`1.0 if current_velocity > 0 else 0.5` when the baseline velocity is zero,
otherwise `min(current_velocity / baseline_velocity, 2.0)`. -/
def pdr (snapshots : List SnapshotData) : ℚ :=
  if baseline_velocity snapshots = 0 then
    (if 0 < current_velocity snapshots then 1 else 1/2)
  else
    min (current_velocity snapshots / baseline_velocity snapshots) 2

/-- `compute_pdr` from `src/pilot.py`: Promise Delivery Ratio plus its
provenance.  An empty snapshot list returns `0.0` with the error marker. -/
def compute_pdr (agent_id : String) (snapshots : List SnapshotData) :
    ℚ × Provenance :=
  if snapshots = [] then (0, .err "no_snapshots")
  else
    (pdr snapshots,
     .record "velocity_based_pdr_v1" "nanook_snapshots"
       "PDR = current_velocity / baseline_velocity (capped at 2.0)"
       "gerundium@agentmail.to"
       ((baseline_window snapshots).map SnapshotData.commits).sum
       ((baseline_window snapshots).map SnapshotData.releases).sum
       (baseline_window snapshots).length
       (baseline_velocity snapshots)
       ((recent_window snapshots).map SnapshotData.commits).sum
       ((recent_window snapshots).map SnapshotData.releases).sum
       (recent_window snapshots).length
       (current_velocity snapshots)
       (pdr snapshots))

/-- `compute_quality_score` from `src/pilot.py`: quality of the latest
snapshot, `min(quality * 2, 100)`; `50.0` on an empty list. -/
def compute_quality_score (snapshots : List SnapshotData) : ℚ :=
  if h : snapshots = [] then 50
  else
    let latest := snapshots.getLast h
    let quality : ℚ := (latest.stars_gained : ℚ)
      + (latest.contributors : ℚ) * 5 + (latest.issues_closed : ℚ) * 2
    min (quality * 2) 100

/-- The score combination of `get_agent_score` in `src/pilot.py`:
`overall_score = (pdr * 70) + (quality_score * 0.3)`. -/
def overall_score (agent_id : String) (snapshots : List SnapshotData) : ℚ :=
  ((compute_pdr agent_id snapshots).1 * 70)
    + (compute_quality_score snapshots * (3/10))

/-- A snapshot with the given commit and release counts and zero elsewhere. -/
def snap (c r : Nat) : SnapshotData := ⟨"a", "d", c, r, 0, 0, 0, 0⟩

/-- Three snapshots with commits `[2,3,5]` and releases `[0,0,1]`: both windows
are the whole list, both velocities are `5`, so the PDR is `1` with a nonzero
baseline velocity. -/
def snaps3 : List SnapshotData := [snap 2 0, snap 3 0, snap 5 1]

/-- Eight snapshots with commits `[2,0,0,0,0,0,0,1]`: baseline velocity `2/7`,
current velocity `1/7`, so the PDR is the genuine ratio `1/2`. -/
def snaps8 : List SnapshotData :=
  [snap 2 0, snap 0 0, snap 0 0, snap 0 0, snap 0 0, snap 0 0, snap 0 0, snap 1 0]

/-- Eight snapshots with commits `[1,0,0,0,0,0,0,2]`: baseline velocity `1/7`,
current velocity `2/7`, PDR capped at `2`, overall score `140`. -/
def snapsUp : List SnapshotData :=
  [snap 1 0, snap 0 0, snap 0 0, snap 0 0, snap 0 0, snap 0 0, snap 0 0, snap 2 0]

/-!
Part 2: `src/api/index.py`.  The external profile fetch `_fetch_github`
returns either a found record with the profile attributes read by
`_calc_score`, or a not-found marker; transport failures also collapse to
not-found.  It is modelled as a function parameter `fetch`.  `created_year`
models `int(created_at[:4])`, with `none` for an empty `created_at` string;
`has_bio` and `has_blog` model the truthiness of the `bio` and `blog`
fields.
-/

/-- Result of the `_fetch_github` collaborator, restricted to the fields
`_calc_score` reads. -/
structure GithubData where
  found : Bool
  public_repos : Nat
  followers : Nat
  following : Nat
  created_year : Option Int
  has_bio : Bool
  has_blog : Bool
deriving DecidableEq, Repr

/-- The evidence mapping of `POST /verify`: `github` holds the (truthy)
secondary handle when present; the other three recognized keys are modelled
by their presence.  `none` at the call site stands for an absent or falsy
(empty) evidence dictionary. -/
structure Evidence where
  github : Option String
  website : Bool
  did : Bool
  wallet : Bool
deriving DecidableEq, Repr

/-- The five factor values of the `factors` dictionary.  All the source's
assignments to them are integer-valued (the one float, `ratio * 10`, is
truncated by `int(...)`), so the values are integers. -/
structure Factors where
  identity : Int
  provenance : Int
  behavior : Int
  reputation : Int
  transparency : Int
deriving DecidableEq, Repr

/-- The five factor values in the fixed order of `TRUST_FACTORS`. -/
def factorList (f : Factors) : List Int :=
  [f.identity, f.provenance, f.behavior, f.reputation, f.transparency]

/-- `min(100, v + b)`: the clamped additive evidence bonus pattern
`factors[k] = min(100, factors.get(k, 50) + b)` (all five keys are always
present by the time bonuses run, so the `.get` default `50` is dead). -/
def bonus (v b : Int) : Int := min 100 (v + b)

/-- The demo branch of `_calc_score`:
`factors[k] = 30 + (int(sha256((agent_id + k)).hexdigest()[:4], 16) % 50)`.
`hash4` is the SHA-256 digest-to-integer primitive
`fun s => int(sha256(s).hexdigest()[:4], 16)`, a fixed deterministic pure
function supplied as a parameter. -/
def demoFactors (hash4 : String → Nat) (agent_id : String) : Factors :=
  ⟨30 + ((hash4 (agent_id ++ "identity") % 50 : Nat) : Int),
   30 + ((hash4 (agent_id ++ "provenance") % 50 : Nat) : Int),
   30 + ((hash4 (agent_id ++ "behavior") % 50 : Nat) : Int),
   30 + ((hash4 (agent_id ++ "reputation") % 50 : Nat) : Int),
   30 + ((hash4 (agent_id ++ "transparency") % 50 : Nat) : Int)⟩

/-- `ratio = (followers / max(1, following)) if following else 1`. -/
def githubRatio (g : GithubData) : ℚ :=
  if g.following = 0 then 1
  else (g.followers : ℚ) / ((max 1 g.following : Nat) : ℚ)

/-- The found branch of `_calc_score`: the five factors computed from the
fetched profile attributes. -/
def foundFactors (g : GithubData) : Factors :=
  let repos : Int := g.public_repos
  let age_score : Int :=
    match g.created_year with
    | some y => min 90 (30 + (2026 - y) * 8)
    | none => 40
  let bio_bonus : Int := if g.has_bio then 10 else 0
  let blog_bonus : Int := if g.has_blog then 15 else 0
  ⟨min 100 (age_score + bio_bonus),
   min 100 (20 + repos * 2),
   min 100 (30 + ⌊githubRatio g * 10⌋ + min 30 repos),
   min 100 (20 + min 80 ((g.followers : Int) * 2)),
   min 100 (20 + repos * 3 + blog_bonus)⟩

/-- The `evidence.get("github")` bonus: when the secondary handle fetches a
found profile, +15 to identity and +10 to transparency (both clamped), the
verification tag switches to `github_verified` and the source URL points at
the secondary handle. -/
def evGithub (fetch : String → GithubData) (o : Option String)
    (f : Factors) (verification : String) (source : Option String) :
    Factors × String × Option String :=
  match o with
  | none => (f, verification, source)
  | some u =>
    if (fetch u).found then
      (⟨bonus f.identity 15, f.provenance, f.behavior, f.reputation,
          bonus f.transparency 10⟩,
       "github_verified", some ("https://github.com/" ++ u))
    else (f, verification, source)

/-- The `evidence.get("website")` bonus: +10 to transparency, clamped. -/
def evWebsite (w : Bool) (f : Factors) : Factors :=
  if w then
    ⟨f.identity, f.provenance, f.behavior, f.reputation, bonus f.transparency 10⟩
  else f

/-- The `evidence.get("did")` bonus: +20 to identity, clamped. -/
def evDid (d : Bool) (f : Factors) : Factors :=
  if d then
    ⟨bonus f.identity 20, f.provenance, f.behavior, f.reputation, f.transparency⟩
  else f

/-- The `if evidence:` block of `_calc_score`, in source order: github,
then website, then did.  No other key of the evidence mapping is read. -/
def applyEvidence (fetch : String → GithubData) (evidence : Option Evidence)
    (f : Factors) (verification : String) (source : Option String) :
    Factors × String × Option String :=
  match evidence with
  | none => (f, verification, source)
  | some e =>
    let g := evGithub fetch e.github f verification source
    (evDid e.did (evWebsite e.website g.1), g.2.1, g.2.2)

/-- `total = sum(factors[k] * TRUST_FACTORS[k]["weight"] for k in TRUST_FACTORS)`
with the weights 0.25, 0.25, 0.2, 0.15, 0.15. -/
def weightedTotal (f : Factors) : ℚ :=
  (f.identity : ℚ) * (1/4) + (f.provenance : ℚ) * (1/4)
    + (f.behavior : ℚ) * (1/5) + (f.reputation : ℚ) * (3/20)
    + (f.transparency : ℚ) * (3/20)

/-- The grade chain of `_calc_score`:
`"A+" if total > 90 else "A" if total > 80 else "B" if total > 65 else "C"
if total > 50 else "D" if total > 35 else "F"`. -/
def grade (total : ℚ) : String :=
  if 90 < total then "A+"
  else if 80 < total then "A"
  else if 65 < total then "B"
  else if 50 < total then "C"
  else if 35 < total then "D"
  else "F"

/-- The result dictionary of `_calc_score`, restricted to the computed
fields.  `total` is held exactly; the source rounds it to one decimal for
JSON display after the grade has been computed from the unrounded value,
and the factor values, being integers, are unchanged by their rounding.
The wall-clock `verified_at` timestamp and the constant `version` field are
outside the embedding. -/
structure ScoreResult where
  agent_id : String
  total : ℚ
  grade : String
  factors : Factors
  verification : String
  source : Option String
deriving DecidableEq, Repr

/-- `_calc_score` from `src/api/index.py` (leading underscore dropped):
fetch the profile, take the found or the demo branch, apply the evidence
bonuses, then the weighted total and the grade. -/
def calc_score (fetch : String → GithubData) (hash4 : String → Nat)
    (agent_id : String) (evidence : Option Evidence) : ScoreResult :=
  let github_data := fetch agent_id
  let base : Factors × String × Option String :=
    if github_data.found then
      (foundFactors github_data, "github_verified",
       some ("https://github.com/" ++ agent_id))
    else
      (demoFactors hash4 agent_id, "demo_unverified", none)
  let applied := applyEvidence fetch evidence base.1 base.2.1 base.2.2
  ⟨agent_id, weightedTotal applied.1, grade (weightedTotal applied.1),
   applied.1, applied.2.1, applied.2.2⟩

/-- The behavior formula exactly as claim C6 words it (no truncation):
`clamp(30 + 10 * (followers / max(1, following)) + min(30, publicRepoCount), 0, 100)`
with the ratio defaulting to 1 when following is zero.  Stated for
comparison with the source's `foundFactors`; the two differ because the
source truncates `ratio * 10` with `int(...)`. -/
def behavior_claimed (g : GithubData) : ℚ :=
  max 0 (min 100 (30 + 10 * githubRatio g + min 30 (g.public_repos : ℚ)))

/-- A fetch collaborator that reports every identifier as not found
(demo mode). -/
def fetchMiss : String → GithubData := fun _ => ⟨false, 0, 0, 0, none, false, false⟩

/-- A fetch collaborator returning a found profile whose account creation
year is 2030 (later than the hard-coded 2026), no bio, no blog, no
activity. -/
def fetchYear2030 : String → GithubData :=
  fun _ => ⟨true, 0, 0, 0, some 2030, false, false⟩

/-- A fetch collaborator returning a found profile with 1 follower and 3
following, so the behavior ratio is `1/3`. -/
def fetchThird : String → GithubData :=
  fun _ => ⟨true, 0, 1, 3, some 2020, false, false⟩

/-- A fetch collaborator returning a found profile with 5 repos, 4
followers, 2 following, created 2020, with bio and blog. -/
def fetchFound : String → GithubData :=
  fun _ => ⟨true, 5, 4, 2, some 2020, true, true⟩

/-- A stand-in for the digest-to-integer primitive in witnesses: the
string length. -/
def hashLen : String → Nat := fun s => s.length

/-! Helper lemmas. -/

lemma compute_pdr_fst (a : String) {s : List SnapshotData} (h : s ≠ []) :
    (compute_pdr a s).1 = pdr s := by
  rw [compute_pdr, if_neg h]

lemma githubRatio_nonneg (g : GithubData) : 0 ≤ githubRatio g := by
  unfold githubRatio
  split
  · norm_num
  · positivity

lemma floor_ratio_nonneg (g : GithubData) : 0 ≤ ⌊githubRatio g * 10⌋ :=
  Int.floor_nonneg.mpr (mul_nonneg (githubRatio_nonneg g) (by norm_num))

lemma factorList_forall (f : Factors) (p : Int → Prop) :
    (∀ v ∈ factorList f, p v) ↔
      p f.identity ∧ p f.provenance ∧ p f.behavior ∧ p f.reputation
        ∧ p f.transparency := by
  simp [factorList]

lemma demoFactors_bounds (hash4 : String → Nat) (id : String) :
    ∀ v ∈ factorList (demoFactors hash4 id), 30 ≤ v ∧ v ≤ 79 := by
  rw [factorList_forall]
  simp only [demoFactors]
  refine ⟨?_, ?_, ?_, ?_, ?_⟩ <;> omega

lemma foundFactors_le (g : GithubData) :
    ∀ v ∈ factorList (foundFactors g), v ≤ 100 := by
  rw [factorList_forall]
  simp only [foundFactors]
  exact ⟨min_le_left _ _, min_le_left _ _, min_le_left _ _, min_le_left _ _,
    min_le_left _ _⟩

lemma foundFactors_nonneg (g : GithubData)
    (hy : ∀ y : Int, g.created_year = some y → y ≤ 2029) :
    ∀ v ∈ factorList (foundFactors g), 0 ≤ v := by
  rw [factorList_forall]
  have hfl := floor_ratio_nonneg g
  have hrepos : (0 : Int) ≤ (g.public_repos : Int) := Int.ofNat_nonneg _
  have hfol : (0 : Int) ≤ (g.followers : Int) := Int.ofNat_nonneg _
  simp only [foundFactors]
  refine ⟨?_, by omega, by omega, by omega, ?_⟩
  · rcases hcy : g.created_year with _ | y
    · simp only [hcy]
      split <;> omega
    · have hy2 := hy y hcy
      simp only [hcy]
      split <;> omega
  · split <;> omega

lemma applyEvidence_upper (fetch : String → GithubData) (ev : Option Evidence)
    (f : Factors) (vtag : String) (src : Option String)
    (h : ∀ v ∈ factorList f, v ≤ 100) :
    ∀ v ∈ factorList (applyEvidence fetch ev f vtag src).1, v ≤ 100 := by
  rw [factorList_forall] at h ⊢
  obtain ⟨h1, h2, h3, h4, h5⟩ := h
  rcases ev with _ | ⟨og, w, d, wl⟩
  · exact ⟨h1, h2, h3, h4, h5⟩
  · rcases og with _ | u <;>
      simp only [applyEvidence, evGithub, evWebsite, evDid, bonus] <;>
      split_ifs <;> (try dsimp only) <;> omega

lemma applyEvidence_lower (fetch : String → GithubData) (ev : Option Evidence)
    (f : Factors) (vtag : String) (src : Option String)
    (h : ∀ v ∈ factorList f, 0 ≤ v) :
    ∀ v ∈ factorList (applyEvidence fetch ev f vtag src).1, 0 ≤ v := by
  rw [factorList_forall] at h ⊢
  obtain ⟨h1, h2, h3, h4, h5⟩ := h
  rcases ev with _ | ⟨og, w, d, wl⟩
  · exact ⟨h1, h2, h3, h4, h5⟩
  · rcases og with _ | u <;>
      simp only [applyEvidence, evGithub, evWebsite, evDid, bonus] <;>
      split_ifs <;> (try dsimp only) <;> omega

/-! Claims about `src/api/index.py`. -/

/-- Claim C9: the letter grade is a pure step function of the total with
exclusive lower bounds: `>90 → A+`, `>80 → A`, `>65 → B`, `>50 → C`,
`>35 → D`, else `F`; in particular a total of exactly `50.0` receives the
grade `D`, not `C`. -/
theorem grade_step (t : ℚ) :
    (90 < t → grade t = "A+") ∧
    (80 < t ∧ t ≤ 90 → grade t = "A") ∧
    (65 < t ∧ t ≤ 80 → grade t = "B") ∧
    (50 < t ∧ t ≤ 65 → grade t = "C") ∧
    (35 < t ∧ t ≤ 50 → grade t = "D") ∧
    (t ≤ 35 → grade t = "F") ∧
    grade 50 = "D" := by
  unfold grade
  refine ⟨fun h => ?_, fun h => ?_, fun h => ?_, fun h => ?_, fun h => ?_,
    fun h => ?_, ?_⟩
  · rw [if_pos h]
  · rw [if_neg (not_lt.mpr (by linarith [h.2])), if_pos h.1]
  · rw [if_neg (not_lt.mpr (by linarith [h.2])),
      if_neg (not_lt.mpr (by linarith [h.2])), if_pos h.1]
  · rw [if_neg (not_lt.mpr (by linarith [h.2])),
      if_neg (not_lt.mpr (by linarith [h.2])),
      if_neg (not_lt.mpr (by linarith [h.2])), if_pos h.1]
  · rw [if_neg (not_lt.mpr (by linarith [h.2])),
      if_neg (not_lt.mpr (by linarith [h.2])),
      if_neg (not_lt.mpr (by linarith [h.2])),
      if_neg (not_lt.mpr (by linarith [h.2])), if_pos h.1]
  · rw [if_neg (not_lt.mpr (by linarith)),
      if_neg (not_lt.mpr (by linarith)),
      if_neg (not_lt.mpr (by linarith)),
      if_neg (not_lt.mpr (by linarith)),
      if_neg (not_lt.mpr (by linarith))]
  · norm_num

/-- Claim C9 witness: the grade at the boundary and interior points
`91 → A+`, `85 → A`, `50 → D` and `30 → F`. -/
theorem grade_step_witness :
    grade 91 = "A+" ∧ grade 85 = "A" ∧ grade 50 = "D" ∧ grade 30 = "F" :=
  ⟨(grade_step 91).1 (by norm_num),
   (grade_step 85).2.1 ⟨by norm_num, by norm_num⟩,
   (grade_step 50).2.2.2.2.2.2,
   (grade_step 30).2.2.2.2.2.1 (by norm_num)⟩

/-- Claim C2: when the profile fetch reports not found (demo mode, no
evidence), each of the five factors equals
`30 + (hash-derived integer of (identifier + factorName) mod 50)`, so every
factor lies in `[30, 79]`; and scoring is reproducible: any two calls on the
same identifier — even with a different not-found fetch collaborator and any
digest function agreeing on the five hashed strings — return identical
results (factors, total and all). -/
theorem demo_factors_deterministic
    (fetch fetch2 : String → GithubData) (hash4 hash42 : String → Nat)
    (id : String)
    (hf : (fetch id).found = false) (hf2 : (fetch2 id).found = false)
    (hh : ∀ k ∈ (["identity", "provenance", "behavior", "reputation",
        "transparency"] : List String), hash42 (id ++ k) = hash4 (id ++ k)) :
    ((calc_score fetch hash4 id none).factors.identity
        = 30 + ((hash4 (id ++ "identity") % 50 : Nat) : Int)
      ∧ (calc_score fetch hash4 id none).factors.provenance
        = 30 + ((hash4 (id ++ "provenance") % 50 : Nat) : Int)
      ∧ (calc_score fetch hash4 id none).factors.behavior
        = 30 + ((hash4 (id ++ "behavior") % 50 : Nat) : Int)
      ∧ (calc_score fetch hash4 id none).factors.reputation
        = 30 + ((hash4 (id ++ "reputation") % 50 : Nat) : Int)
      ∧ (calc_score fetch hash4 id none).factors.transparency
        = 30 + ((hash4 (id ++ "transparency") % 50 : Nat) : Int)) ∧
    (∀ v ∈ factorList (calc_score fetch hash4 id none).factors,
      30 ≤ v ∧ v ≤ 79) ∧
    calc_score fetch2 hash42 id none = calc_score fetch hash4 id none := by
  have e1 := hh "identity" (by simp)
  have e2 := hh "provenance" (by simp)
  have e3 := hh "behavior" (by simp)
  have e4 := hh "reputation" (by simp)
  have e5 := hh "transparency" (by simp)
  refine ⟨⟨?_, ?_, ?_, ?_, ?_⟩, ?_, ?_⟩ <;>
    simp [calc_score, hf, hf2, applyEvidence, demoFactors, e1, e2, e3, e4, e5]
  exact demoFactors_bounds hash4 id

/-- Claim C2 witness: demo-mode scoring of the identifier `"alice"` with a
concrete not-found fetch and the string-length digest stand-in. -/
theorem demo_factors_deterministic_witness :
    ((calc_score fetchMiss hashLen "alice" none).factors.identity
        = 30 + ((hashLen ("alice" ++ "identity") % 50 : Nat) : Int)
      ∧ (calc_score fetchMiss hashLen "alice" none).factors.provenance
        = 30 + ((hashLen ("alice" ++ "provenance") % 50 : Nat) : Int)
      ∧ (calc_score fetchMiss hashLen "alice" none).factors.behavior
        = 30 + ((hashLen ("alice" ++ "behavior") % 50 : Nat) : Int)
      ∧ (calc_score fetchMiss hashLen "alice" none).factors.reputation
        = 30 + ((hashLen ("alice" ++ "reputation") % 50 : Nat) : Int)
      ∧ (calc_score fetchMiss hashLen "alice" none).factors.transparency
        = 30 + ((hashLen ("alice" ++ "transparency") % 50 : Nat) : Int)) ∧
    (∀ v ∈ factorList (calc_score fetchMiss hashLen "alice" none).factors,
      30 ≤ v ∧ v ≤ 79) ∧
    calc_score fetchMiss hashLen "alice" none
      = calc_score fetchMiss hashLen "alice" none :=
  demo_factors_deterministic fetchMiss fetchMiss hashLen hashLen "alice"
    rfl rfl (fun _ _ => rfl)

/-- Claim C3 counterexample: a found profile whose account creation year is
2030 yields `identity = min(100, min(90, 30 + (2026 - 2030) * 8)) = -2`,
below the claimed lower bound 0 (the source has no lower clamp on this
factor). -/
theorem factor_range_cex :
    (calc_score fetchYear2030 hashLen "x" none).factors.identity = -2 ∧
    ¬(0 ≤ (calc_score fetchYear2030 hashLen "x" none).factors.identity) := by
  norm_num [calc_score, applyEvidence, foundFactors, fetchYear2030]

/-- Claim C3 amended: every factor value is at most 100 in every branch and
after every combination of evidence bonuses; and every factor value is at
least 0 provided that, when the fetched profile carries an account creation
year, that year is at most 2029 (with a later year the identity factor can
be negative, as the counterexample shows; the hard-coded current year is
2026). -/
theorem factor_range_amended (fetch : String → GithubData)
    (hash4 : String → Nat) (id : String) (ev : Option Evidence) :
    (∀ v ∈ factorList (calc_score fetch hash4 id ev).factors, v ≤ 100) ∧
    ((∀ y : Int, (fetch id).created_year = some y → y ≤ 2029) →
      ∀ v ∈ factorList (calc_score fetch hash4 id ev).factors, 0 ≤ v) := by
  constructor
  · by_cases hfound : (fetch id).found
    · simpa [calc_score, hfound] using
        applyEvidence_upper fetch ev (foundFactors (fetch id)) _ _
          (foundFactors_le (fetch id))
    · simp only [calc_score, hfound]
      refine applyEvidence_upper fetch ev (demoFactors hash4 id) _ _ ?_
      intro v hv
      exact (demoFactors_bounds hash4 id v hv).2.trans (by norm_num)
  · intro hy
    by_cases hfound : (fetch id).found
    · simpa [calc_score, hfound] using
        applyEvidence_lower fetch ev (foundFactors (fetch id)) _ _
          (foundFactors_nonneg (fetch id) hy)
    · simp only [calc_score, hfound]
      refine applyEvidence_lower fetch ev (demoFactors hash4 id) _ _ ?_
      intro v hv
      exact le_trans (by norm_num) (demoFactors_bounds hash4 id v hv).1

/-- Claim C3 amended witness: the bounds on a concrete found profile
(created 2020) and with the year hypothesis discharged. -/
theorem factor_range_amended_witness :
    (∀ v ∈ factorList (calc_score fetchFound hashLen "w" none).factors,
      v ≤ 100) ∧
    (∀ v ∈ factorList (calc_score fetchFound hashLen "w" none).factors,
      0 ≤ v) :=
  ⟨(factor_range_amended fetchFound hashLen "w" none).1,
   (factor_range_amended fetchFound hashLen "w" none).2
     (by intro y hy; simp [fetchFound] at hy; omega)⟩

/-- Claim C5 counterexample: supplying the `wallet` evidence key changes
nothing — on the concrete demo-mode input `"alice"`, the score computed with
wallet-only evidence is identical to the score with no evidence at all
(`_calc_score` never reads the `wallet` key). -/
theorem wallet_evidence_cex :
    calc_score fetchMiss hashLen "alice" (some ⟨none, false, false, true⟩)
      = calc_score fetchMiss hashLen "alice" none := by
  simp [calc_score, applyEvidence, evGithub, evWebsite, evDid]

/-- Claim C5 amended: of the recognized evidence keys, `github` (when the
secondary handle fetches a found profile), `website` and `did` each trigger
an additive clamped bonus to specific factors, but `wallet` triggers no
bonus: for every input, the result with the wallet key present is identical
to the result with it absent. -/
theorem evidence_bonus_amended (fetch : String → GithubData)
    (hash4 : String → Nat) (id : String) :
    (∀ e : Evidence,
      calc_score fetch hash4 id (some ⟨e.github, e.website, e.did, true⟩)
        = calc_score fetch hash4 id (some ⟨e.github, e.website, e.did, false⟩)) ∧
    ((calc_score fetch hash4 id (some ⟨none, true, false, false⟩)).factors =
      ⟨(calc_score fetch hash4 id none).factors.identity,
       (calc_score fetch hash4 id none).factors.provenance,
       (calc_score fetch hash4 id none).factors.behavior,
       (calc_score fetch hash4 id none).factors.reputation,
       bonus (calc_score fetch hash4 id none).factors.transparency 10⟩) ∧
    ((calc_score fetch hash4 id (some ⟨none, false, true, false⟩)).factors =
      ⟨bonus (calc_score fetch hash4 id none).factors.identity 20,
       (calc_score fetch hash4 id none).factors.provenance,
       (calc_score fetch hash4 id none).factors.behavior,
       (calc_score fetch hash4 id none).factors.reputation,
       (calc_score fetch hash4 id none).factors.transparency⟩) ∧
    (∀ u : String, (fetch u).found = true →
      (calc_score fetch hash4 id (some ⟨some u, false, false, false⟩)).factors =
        ⟨bonus (calc_score fetch hash4 id none).factors.identity 15,
         (calc_score fetch hash4 id none).factors.provenance,
         (calc_score fetch hash4 id none).factors.behavior,
         (calc_score fetch hash4 id none).factors.reputation,
         bonus (calc_score fetch hash4 id none).factors.transparency 10⟩) := by
  refine ⟨fun e => rfl, ?_, ?_, fun u hu => ?_⟩
  · simp [calc_score, applyEvidence, evGithub, evWebsite, evDid]
  · simp [calc_score, applyEvidence, evGithub, evWebsite, evDid]
  · simp [calc_score, applyEvidence, evGithub, evWebsite, evDid, hu]

/-- Claim C5 amended witness: the github-evidence bonus applied on a
concrete found secondary profile. -/
theorem evidence_bonus_amended_witness :
    (calc_score fetchFound hashLen "x" (some ⟨some "y", false, false, false⟩)).factors =
      ⟨bonus (calc_score fetchFound hashLen "x" none).factors.identity 15,
       (calc_score fetchFound hashLen "x" none).factors.provenance,
       (calc_score fetchFound hashLen "x" none).factors.behavior,
       (calc_score fetchFound hashLen "x" none).factors.reputation,
       bonus (calc_score fetchFound hashLen "x" none).factors.transparency 10⟩ :=
  (evidence_bonus_amended fetchFound hashLen "x").2.2.2 "y" rfl

/-- Claim C6 counterexample: on a found profile with 1 follower, 3
following and 0 repos the source computes
`behavior = min(100, 30 + int((1/3) * 10) + 0) = 33`, while the claimed
untruncated formula gives `30 + 10 * (1/3) = 100/3`; the two differ. -/
theorem behavior_formula_cex :
    (calc_score fetchThird hashLen "x" none).factors.behavior = 33 ∧
    ((calc_score fetchThird hashLen "x" none).factors.behavior : ℚ)
      ≠ behavior_claimed (fetchThird "x") := by
  have h33 : (calc_score fetchThird hashLen "x" none).factors.behavior = 33 := by
    norm_num [calc_score, applyEvidence, foundFactors, githubRatio, fetchThird]
  refine ⟨h33, ?_⟩
  rw [h33]
  norm_num [behavior_claimed, githubRatio, fetchThird]

/-- Claim C6 amended: for every found profile the behavior factor equals
`clamp(30 + floor(10 * ratio) + min(30, publicRepoCount), 0, 100)` where the
ratio is `followers / max(1, following)`, defaulting to 1 when following is
zero — i.e. the claimed formula with the product `10 * ratio` truncated to
an integer, as the source's `int(ratio * 10)` does. -/
theorem behavior_formula_amended (fetch : String → GithubData)
    (hash4 : String → Nat) (id : String)
    (hfound : (fetch id).found = true) :
    (calc_score fetch hash4 id none).factors.behavior
      = max 0 (min 100 (30 + ⌊10 * githubRatio (fetch id)⌋
          + min 30 ((fetch id).public_repos : Int))) := by
  have hfl := floor_ratio_nonneg (fetch id)
  have hrepos : (0 : Int) ≤ ((fetch id).public_repos : Int) := Int.ofNat_nonneg _
  simp only [calc_score, hfound, applyEvidence, foundFactors, if_true]
  rw [mul_comm (10 : ℚ) (githubRatio (fetch id))]
  omega

/-- Claim C6 amended witness: the truncated formula on a concrete found
profile with 4 followers, 2 following and 5 repos (behavior `55`). -/
theorem behavior_formula_amended_witness :
    (calc_score fetchFound hashLen "x" none).factors.behavior
      = max 0 (min 100 (30 + ⌊10 * githubRatio (fetchFound "x")⌋
          + min 30 ((fetchFound "x").public_repos : Int))) :=
  behavior_formula_amended fetchFound hashLen "x" rfl

lemma window_velocity_nonneg (w : List SnapshotData) : 0 ≤ window_velocity w := by
  unfold window_velocity
  positivity

lemma baseline_window_eq_take (s : List SnapshotData) :
    baseline_window s = s.take 7 := by
  unfold baseline_window
  split
  · rfl
  · next hlen => rw [List.take_of_length_le (by omega)]

lemma recent_window_eq_drop (s : List SnapshotData) :
    recent_window s = s.drop (s.length - 7) := by
  unfold recent_window
  split
  · rfl
  · next hlen =>
    have h0 : s.length - 7 = 0 := by omega
    rw [h0, List.drop_zero]

lemma window_velocity_commits_releases (w : List SnapshotData) :
    window_velocity w =
      (((w.map SnapshotData.commits).sum : ℚ)
        + 5 * ((w.map SnapshotData.releases).sum : ℚ)) / (w.length : ℚ) := by
  unfold window_velocity
  ring_nf

/-! Claims about `src/pilot.py`. -/

/-- C10: called on an empty snapshot sequence (violating the stated
precondition) `compute_pdr` does not raise: it returns PDR `0.0` together
with the degenerate provenance `{"error": "no_snapshots"}` carrying only the
error marker instead of the full audit fields. -/
theorem compute_pdr_empty (a : String) :
    compute_pdr a [] = (0, Provenance.err "no_snapshots") := rfl

/-- C1: on every non-empty snapshot sequence, `compute_pdr` takes the
baseline window as the first 7 snapshots (or all if fewer), the recent
window as the last 7 (or all if fewer), sets each velocity to
`(sum of commits + 5 * sum of releases) / (window snapshot count)`, and
returns `1.0` if the baseline velocity is `0` and the current velocity is
positive, `0.5` if both velocities are `0`, and otherwise
`min(current_velocity / baseline_velocity, 2.0)`. -/
theorem compute_pdr_window_formula (a : String) (s : List SnapshotData) (h : s ≠ []) :
    (compute_pdr a s).1 =
      (let B := s.take 7
       let R := s.drop (s.length - 7)
       let bv : ℚ := (((B.map SnapshotData.commits).sum : ℚ)
           + 5 * ((B.map SnapshotData.releases).sum : ℚ)) / (B.length : ℚ)
       let cv : ℚ := (((R.map SnapshotData.commits).sum : ℚ)
           + 5 * ((R.map SnapshotData.releases).sum : ℚ)) / (R.length : ℚ)
       if bv = 0 then (if 0 < cv then 1 else 1/2) else min (cv / bv) 2) := by
  rw [compute_pdr_fst a h]
  simp only [pdr, baseline_velocity, current_velocity,
    window_velocity_commits_releases, baseline_window_eq_take, recent_window_eq_drop]

/-- C1 witness: the formula evaluated on the concrete three-snapshot list. -/
theorem compute_pdr_window_formula_witness :
    snaps3 ≠ [] ∧
    (compute_pdr "getclawe" snaps3).1 =
      (let B := snaps3.take 7
       let R := snaps3.drop (snaps3.length - 7)
       let bv : ℚ := (((B.map SnapshotData.commits).sum : ℚ)
           + 5 * ((B.map SnapshotData.releases).sum : ℚ)) / (B.length : ℚ)
       let cv : ℚ := (((R.map SnapshotData.commits).sum : ℚ)
           + 5 * ((R.map SnapshotData.releases).sum : ℚ)) / (R.length : ℚ)
       if bv = 0 then (if 0 < cv then 1 else 1/2) else min (cv / bv) 2) :=
  ⟨by decide, compute_pdr_window_formula "getclawe" snaps3 (by decide)⟩

/-- C4 counterexample: the claim's "exactly when" directions fail.  On
`snaps3` the PDR is `1.0` although the baseline velocity is `5`, not `0`;
on `snaps8` the PDR is `0.5` although neither velocity is `0` (it is the
genuine ratio `(1/7)/(2/7)`). -/
theorem pdr_exactness_cex :
    ((compute_pdr "a" snaps3).1 = 1
      ∧ ¬(baseline_velocity snaps3 = 0 ∧ 0 < current_velocity snaps3)) ∧
    ((compute_pdr "a" snaps8).1 = 1/2
      ∧ ¬(baseline_velocity snaps8 = 0 ∧ current_velocity snaps8 = 0)) := by
  rw [compute_pdr_fst "a" (by decide), compute_pdr_fst "a" (by decide)]
  norm_num [pdr, baseline_velocity, current_velocity, window_velocity,
    baseline_window, recent_window, snaps3, snaps8, snap]

/-- C4 amended: on every non-empty snapshot sequence the PDR returned by
`compute_pdr` is in `[0, 2.0]`; and when the baseline velocity is `0`, the
PDR equals `1.0` iff the current velocity is positive and equals `0.5` iff
the current velocity is `0`.  (The converse implications of the original
claim fail: the capped ratio branch can also produce `1.0` or `0.5`.) -/
theorem pdr_range_amended (a : String) (s : List SnapshotData) (h : s ≠ []) :
    (0 ≤ (compute_pdr a s).1 ∧ (compute_pdr a s).1 ≤ 2) ∧
    (baseline_velocity s = 0 →
      (((compute_pdr a s).1 = 1 ↔ 0 < current_velocity s) ∧
       ((compute_pdr a s).1 = 1/2 ↔ current_velocity s = 0))) := by
  rw [compute_pdr_fst a h]
  have hbv : 0 ≤ baseline_velocity s := window_velocity_nonneg _
  have hcv : 0 ≤ current_velocity s := window_velocity_nonneg _
  unfold pdr
  constructor
  · split
    · split <;> norm_num
    · exact ⟨le_min (div_nonneg hcv hbv) (by norm_num), min_le_right _ _⟩
  · intro h0
    rw [if_pos h0]
    by_cases hc : 0 < current_velocity s
    · have hcne : current_velocity s ≠ 0 := ne_of_gt hc
      rw [if_pos hc]
      constructor
      · simp [hc]
      · norm_num [hcne]
    · have hc0 : current_velocity s = 0 := le_antisymm (le_of_not_lt hc) hcv
      rw [if_neg hc]
      norm_num [hc0]

/-- C4 amended witness: the bounds and the zero-baseline equivalences on a
concrete single-snapshot list with no activity. -/
theorem pdr_range_amended_witness :
    [snap 0 0] ≠ [] ∧
    ((0 ≤ (compute_pdr "a" [snap 0 0]).1 ∧ (compute_pdr "a" [snap 0 0]).1 ≤ 2) ∧
    (baseline_velocity [snap 0 0] = 0 →
      (((compute_pdr "a" [snap 0 0]).1 = 1 ↔ 0 < current_velocity [snap 0 0]) ∧
       ((compute_pdr "a" [snap 0 0]).1 = 1/2 ↔ current_velocity [snap 0 0] = 0)))) :=
  ⟨by decide, pdr_range_amended "a" [snap 0 0] (by decide)⟩

/-- C8: on every non-empty snapshot sequence the quality score is computed
from the single latest snapshot only, as
`min(2 * (stars_gained + 5 * contributors + 2 * issues_closed), 100)`, and
lies in `[0, 100]`. -/
theorem quality_score_latest (s : List SnapshotData) (h : s ≠ []) :
    compute_quality_score s =
      min (2 * (((s.getLast h).stars_gained : ℚ)
        + 5 * ((s.getLast h).contributors : ℚ)
        + 2 * ((s.getLast h).issues_closed : ℚ))) 100
    ∧ 0 ≤ compute_quality_score s ∧ compute_quality_score s ≤ 100 := by
  have he : compute_quality_score s =
      min ((((s.getLast h).stars_gained : ℚ)
        + ((s.getLast h).contributors : ℚ) * 5
        + ((s.getLast h).issues_closed : ℚ) * 2) * 2) 100 := by
    rw [compute_quality_score, dif_neg h]
  refine ⟨?_, ?_, ?_⟩
  · rw [he]
    congr 1
    ring
  · rw [he]
    exact le_min (by positivity) (by norm_num)
  · rw [he]
    exact min_le_right _ _

/-- C8 witness: quality score of a concrete list whose latest snapshot has
3 stars, 2 contributors and 4 closed issues: `min(2*(3+10+8),100) = 42`. -/
theorem quality_score_latest_witness :
    ([snap 1 0, ⟨"a", "d", 0, 0, 4, 0, 3, 2⟩] : List SnapshotData) ≠ [] ∧
    (compute_quality_score [snap 1 0, ⟨"a", "d", 0, 0, 4, 0, 3, 2⟩] =
      min (2 * ((([snap 1 0, ⟨"a", "d", 0, 0, 4, 0, 3, 2⟩].getLast
          (by decide)).stars_gained : ℚ)
        + 5 * (([snap 1 0, ⟨"a", "d", 0, 0, 4, 0, 3, 2⟩].getLast
          (by decide)).contributors : ℚ)
        + 2 * (([snap 1 0, ⟨"a", "d", 0, 0, 4, 0, 3, 2⟩].getLast
          (by decide)).issues_closed : ℚ))) 100
    ∧ 0 ≤ compute_quality_score [snap 1 0, ⟨"a", "d", 0, 0, 4, 0, 3, 2⟩]
    ∧ compute_quality_score [snap 1 0, ⟨"a", "d", 0, 0, 4, 0, 3, 2⟩] ≤ 100) :=
  ⟨by decide, quality_score_latest [snap 1 0, ⟨"a", "d", 0, 0, 4, 0, 3, 2⟩] (by decide)⟩

/-- C7: on every non-empty snapshot sequence the overall pilot score equals
exactly `70 * PDR + 0.3 * quality_score`; no normalization to 0-100 is
applied, and the result can exceed 100 (witness list: overall `140`). -/
theorem overall_score_formula (a : String) (s : List SnapshotData) (h : s ≠ []) :
    overall_score a s
      = 70 * (compute_pdr a s).1 + (3/10) * compute_quality_score s
    ∧ ∃ t : List SnapshotData, t ≠ [] ∧ 100 < overall_score a t := by
  constructor
  · unfold overall_score
    ring
  · refine ⟨snapsUp, by decide, ?_⟩
    rw [overall_score, compute_pdr_fst a (by decide), compute_quality_score,
      dif_neg (by decide : snapsUp ≠ [])]
    norm_num [pdr, baseline_velocity, current_velocity, window_velocity,
      baseline_window, recent_window, snapsUp, snap]

/-- C7 witness: the formula evaluated on the concrete three-snapshot list. -/
theorem overall_score_formula_witness :
    snaps3 ≠ [] ∧
    (overall_score "a" snaps3
      = 70 * (compute_pdr "a" snaps3).1 + (3/10) * compute_quality_score snaps3
    ∧ ∃ t : List SnapshotData, t ≠ [] ∧ 100 < overall_score "a" t) :=
  ⟨by decide, overall_score_formula "a" snaps3 (by decide)⟩

end TrustVerifier
